import Mathlib

/-!
Shallow embedding of the InvestWise market-condition classifier and
portfolio-allocation optimizer.

Sources embedded:
- src/client/src/components/portfolio/mcp/utils.ts  (calculateOptimalAllocation)
- src/server/services/prediction.ts                 (optimizePortfolio)
- src/server/services/market.ts                     (determineMarketCondition,
  determineMarketTrend, getMarketCondition)
- src/unnamed/part_002                              (POST /api/portfolio/optimize)

JavaScript numbers are modelled as exact rationals (ℚ); `Math.round` is
modelled as `jsRound` (round half toward positive infinity, as in JS);
fallible collaborators (yahoo-finance quote, ML prediction, sentiment) are
modelled as `Option`-valued oracle functions, `none` meaning a throw.
-/

namespace InvestWise

/-- Risk profile enum: conservative | moderate | aggressive. -/
inductive RiskProfile
  | conservative
  | moderate
  | aggressive
deriving DecidableEq, Repr

/-- Market condition enum: bearish | neutral | bullish. -/
inductive MarketCondition
  | bearish
  | neutral
  | bullish
deriving DecidableEq, Repr

/-- Trend enum: up | down | sideways. -/
inductive Trend
  | up
  | down
  | sideways
deriving DecidableEq, Repr

/-- `Math.round` in JavaScript: round half toward positive infinity. -/
def jsRound (q : ℚ) : ℤ := ⌊q + 1/2⌋

/-- `Math.max(lo, Math.min(hi, x))`: clamp an integer into `[lo, hi]`. -/
def clampI (lo hi x : ℤ) : ℤ := max lo (min hi x)

/-- The four-bucket asset allocation returned by `calculateOptimalAllocation`
(equity/debt/gold/cash percentages). -/
structure AssetAllocation where
  equity : ℤ
  debt : ℤ
  gold : ℤ
  cash : ℤ
deriving DecidableEq, Repr

/-- `baseAllocations` table of `calculateOptimalAllocation`
(mcp/utils.ts lines 29-33). -/
def mcpBaseAllocations : RiskProfile → AssetAllocation
  | .conservative => ⟨30, 45, 15, 10⟩
  | .moderate => ⟨50, 30, 12, 8⟩
  | .aggressive => ⟨70, 15, 10, 5⟩

/-- `marketAdjustments` table of `calculateOptimalAllocation`
(mcp/utils.ts lines 36-40). -/
def mcpMarketAdjustments : MarketCondition → AssetAllocation
  | .bullish => ⟨10, -5, -3, -2⟩
  | .bearish => ⟨-15, 8, 5, 2⟩
  | .neutral => ⟨0, 0, 0, 0⟩

/-- Step 3 of the optimizer, over an arbitrary base and delta: add the delta
to each bucket and clamp to the per-asset-class bounds
(mcp/utils.ts lines 47-52): equity `[10,90]`, debt `[10,70]`, gold `[0,30]`,
cash `[0,30]`. -/
def applyMarketAdjustment (base adjustment : AssetAllocation) : AssetAllocation where
  equity := clampI 10 90 (base.equity + adjustment.equity)
  debt := clampI 10 70 (base.debt + adjustment.debt)
  gold := clampI 0 30 (base.gold + adjustment.gold)
  cash := clampI 0 30 (base.cash + adjustment.cash)

/-- Base plus delta before any clamping (the raw sums inside the `Math.min`
and `Math.max` calls of mcp/utils.ts lines 47-52). -/
def adjustedRaw (r : RiskProfile) (c : MarketCondition) : AssetAllocation :=
  let base := mcpBaseAllocations r
  let adjustment := mcpMarketAdjustments c
  ⟨base.equity + adjustment.equity, base.debt + adjustment.debt,
   base.gold + adjustment.gold, base.cash + adjustment.cash⟩

/-- The clamped `adjusted` record of mcp/utils.ts lines 47-52. -/
def adjustedClamped (r : RiskProfile) (c : MarketCondition) : AssetAllocation :=
  applyMarketAdjustment (mcpBaseAllocations r) (mcpMarketAdjustments c)

/-- `total` after clamping (mcp/utils.ts line 55). -/
def clampedTotal (r : RiskProfile) (c : MarketCondition) : ℤ :=
  let a := adjustedClamped r c
  a.equity + a.debt + a.gold + a.cash

/-- The renormalized record of mcp/utils.ts lines 56-63: scale each bucket by
`factor = 100 / total` and apply `Math.round`. -/
def normalizedAllocation (r : RiskProfile) (c : MarketCondition) : AssetAllocation :=
  let adjusted := adjustedClamped r c
  let factor : ℚ := 100 / ((clampedTotal r c : ℤ) : ℚ)
  { equity := jsRound ((adjusted.equity : ℚ) * factor)
    debt := jsRound ((adjusted.debt : ℚ) * factor)
    gold := jsRound ((adjusted.gold : ℚ) * factor)
    cash := jsRound ((adjusted.cash : ℚ) * factor) }

/-- `calculateOptimalAllocation` (mcp/utils.ts lines 24-72): base table plus
market-condition delta, per-bucket clamp, proportional renormalization with
rounding, then the residual is added to the equity bucket so the integers sum
to exactly 100. -/
def calculateOptimalAllocation (r : RiskProfile) (c : MarketCondition) : AssetAllocation :=
  let adjusted := normalizedAllocation r c
  let finalTotal := adjusted.equity + adjusted.debt + adjusted.gold + adjusted.cash
  if finalTotal ≠ 100 then
    { adjusted with equity := adjusted.equity + (100 - finalTotal) }
  else
    adjusted

/-- The stocks/bonds/cash/alternatives record of `optimizePortfolio`
(prediction.ts). -/
structure PortfolioBuckets where
  stocks : ℤ
  bonds : ℤ
  cash : ℤ
  alternatives : ℤ
deriving DecidableEq, Repr

/-- `baseAllocations` table of `optimizePortfolio` (prediction.ts lines
204-223). -/
def predBaseAllocations : RiskProfile → PortfolioBuckets
  | .conservative => ⟨30, 45, 15, 10⟩
  | .moderate => ⟨50, 30, 10, 10⟩
  | .aggressive => ⟨70, 15, 5, 10⟩

/-- `marketAdjustments` table of `optimizePortfolio` (prediction.ts lines
226-245). -/
def predMarketAdjustments : MarketCondition → PortfolioBuckets
  | .bearish => ⟨-10, 5, 5, 0⟩
  | .neutral => ⟨0, 0, 0, 0⟩
  | .bullish => ⟨10, -5, -5, 0⟩

/-- `expectedReturns` lookup of prediction.ts lines 269-274; the `|| 0`
default applies to any other category string. -/
def expectedReturns (category : String) : ℚ :=
  if category = "stocks" then 10
  else if category = "bonds" then 5
  else if category = "cash" then 2
  else if category = "alternatives" then 8
  else 0

/-- `riskLevels` lookup of prediction.ts lines 276-281. -/
def riskLevels (category : String) : ℚ :=
  if category = "stocks" then 16
  else if category = "bonds" then 6
  else if category = "cash" then 1
  else if category = "alternatives" then 12
  else 0

/-- The result record of `optimizePortfolio`: allocation entries in
`Object.entries` insertion order, plus expected return and risk level. -/
structure OptimizedPortfolio where
  allocation : List (String × ℤ)
  expectedReturn : ℚ
  riskLevel : ℚ
deriving DecidableEq, Repr

/-- The `optimizedAllocation` record of prediction.ts lines 251-256: base
plus delta, each bucket clamped to `[0,100]`. -/
def optimizedAllocation (r : RiskProfile) (c : MarketCondition) : PortfolioBuckets :=
  let base := predBaseAllocations r
  let adjustment := predMarketAdjustments c
  { stocks := clampI 0 100 (base.stocks + adjustment.stocks)
    bonds := clampI 0 100 (base.bonds + adjustment.bonds)
    cash := clampI 0 100 (base.cash + adjustment.cash)
    alternatives := clampI 0 100 (base.alternatives + adjustment.alternatives) }

/-- The `total` of prediction.ts line 259: sum of the clamped buckets. -/
def optimizedTotal (r : RiskProfile) (c : MarketCondition) : ℤ :=
  let a := optimizedAllocation r c
  a.stocks + a.bonds + a.cash + a.alternatives

/-- `optimizePortfolio` (prediction.ts lines 194-300): base table plus
market-condition delta, clamp each bucket to `[0,100]`, renormalize each
bucket to `Math.round((percentage / total) * 100)`, then compute weighted
expected return and risk level over the normalized percentages. -/
def optimizePortfolio (r : RiskProfile) (c : MarketCondition) : OptimizedPortfolio :=
  let a := optimizedAllocation r c
  let total := optimizedTotal r c
  let allocation : List (String × ℤ) :=
    [("stocks", jsRound ((a.stocks : ℚ) / (total : ℚ) * 100)),
     ("bonds", jsRound ((a.bonds : ℚ) / (total : ℚ) * 100)),
     ("cash", jsRound ((a.cash : ℚ) / (total : ℚ) * 100)),
     ("alternatives", jsRound ((a.alternatives : ℚ) / (total : ℚ) * 100))]
  let expectedReturn : ℚ :=
    allocation.foldl (fun acc item => acc + expectedReturns item.1 * (item.2 : ℚ) / 100) 0
  let riskLevel : ℚ :=
    allocation.foldl (fun acc item => acc + riskLevels item.1 * (item.2 : ℚ) / 100) 0
  ⟨allocation, expectedReturn, riskLevel⟩

/-- The result of `predictMarketMovement` as consumed by market.ts: a trend,
a confidence in `[0,1]`, and a 5-day prediction series (used only for
logging). -/
structure MarketPrediction where
  trend : Trend
  confidence : ℚ
  prediction : List ℚ
deriving DecidableEq, Repr

/-- The result of `analyzeNewsSentiment` as consumed by market.ts: a score,
an emotion label (used only for logging), and a confidence. -/
structure SentimentResult where
  score : ℚ
  emotion : String
  confidence : ℚ
deriving DecidableEq, Repr

/-- Signal 1 of `determineMarketCondition` (market.ts lines 88-93): VIX as a
measure of fear/volatility. -/
def vixSignal (vixValue : ℚ) : MarketCondition :=
  if vixValue > 25 then .bearish
  else if vixValue < 15 then .bullish
  else .neutral

/-- Signal 2 of `determineMarketCondition` (market.ts lines 96-101): the ML
trend prediction. -/
def predictionSignal (p : MarketPrediction) : MarketCondition :=
  if p.trend = .up ∧ p.confidence > 2/5 then .bullish
  else if p.trend = .down ∧ p.confidence > 2/5 then .bearish
  else .neutral

/-- Signal 3 of `determineMarketCondition` (market.ts lines 104-109): the
sentiment analysis. -/
def sentimentSignal (s : SentimentResult) : MarketCondition :=
  if s.score > 3/2 ∧ s.confidence > 2/5 then .bullish
  else if s.score < -(3/2) ∧ s.confidence > 2/5 then .bearish
  else .neutral

/-- Signal 4 of `determineMarketCondition` (market.ts lines 112-117): current
market performance (recent percentage change of the main index). -/
def currentSignal (mainIndexChange : ℚ) : MarketCondition :=
  if mainIndexChange > 1 then .bullish
  else if mainIndexChange < -1 then .bearish
  else .neutral

/-- The `signals.forEach` accumulation of market.ts lines 128-136, folding the
weighted signal list into `(bearishScore, bullishScore, neutralScore)`. -/
def scoreFold (signals : List (MarketCondition × ℚ)) : ℚ × ℚ × ℚ :=
  signals.foldl (fun acc sg =>
    match sg.1 with
    | .bearish => (acc.1 + sg.2, acc.2.1, acc.2.2)
    | .bullish => (acc.1, acc.2.1 + sg.2, acc.2.2)
    | .neutral => (acc.1, acc.2.1, acc.2.2 + sg.2)) (0, 0, 0)

/-- The success path of `determineMarketCondition` (market.ts lines 85-151):
four weighted signals (vix 1.0, prediction 1.5, sentiment 1.0, current 1.2),
then the if-chain on the weighted scores. -/
def determineMarketConditionFull (vixValue mainIndexChange : ℚ)
    (p : MarketPrediction) (s : SentimentResult) : MarketCondition :=
  let signals : List (MarketCondition × ℚ) :=
    [(vixSignal vixValue, 1), (predictionSignal p, 3/2),
     (sentimentSignal s, 1), (currentSignal mainIndexChange, 6/5)]
  let scores := scoreFold signals
  let bearishScore := scores.1
  let bullishScore := scores.2.1
  let neutralScore := scores.2.2
  if bearishScore > bullishScore ∧ bearishScore > neutralScore then .bearish
  else if bullishScore > bearishScore ∧ bullishScore > neutralScore then .bullish
  else .neutral

/-- The catch branch of `determineMarketCondition` (market.ts lines 152-175):
the simpler two-signal model over the VIX value and the recent change. -/
def determineMarketConditionFallback (vixValue mainIndexChange : ℚ) : MarketCondition :=
  if vixValue > 25 then
    if mainIndexChange < -(1/2) then .bearish else .neutral
  else if vixValue < 15 then
    if mainIndexChange > 1/2 then .bullish else .neutral
  else if mainIndexChange > 1 then .bullish
  else if mainIndexChange < -1 then .bearish
  else .neutral

/-- A yahoo-finance quote as consumed by market.ts; `none` fields model
absent (`undefined`) values. -/
structure Quote where
  regularMarketPrice : Option ℚ
  regularMarketChangePercent : Option ℚ
deriving DecidableEq, Repr

/-- The injected collaborators of market.ts: `predictMarketMovement`,
`analyzeNewsSentiment` and `yf.quote`, each returning `none` when the call
throws. -/
structure Oracle where
  predict : String → Option MarketPrediction
  sentiment : String → Option SentimentResult
  quote : String → Option Quote

/-- `determineMarketCondition` (market.ts lines 63-176): run the success path
when both the prediction and the sentiment source answer, and the fallback
when either throws. -/
def determineMarketCondition (o : Oracle) (vixValue mainIndexChange : ℚ)
    (mainIndexSymbol : String) : MarketCondition :=
  match o.predict mainIndexSymbol with
  | none => determineMarketConditionFallback vixValue mainIndexChange
  | some p =>
    match o.sentiment mainIndexSymbol with
    | none => determineMarketConditionFallback vixValue mainIndexChange
    | some s => determineMarketConditionFull vixValue mainIndexChange p s

/-- The simple trend calculation shared by both fallbacks of
`determineMarketTrend` (market.ts lines 193-199 and 203-209). -/
def simpleTrend (change : ℚ) : Trend :=
  if change > 1/2 then .up
  else if change < -(1/2) then .down
  else .sideways

/-- `determineMarketTrend` (market.ts lines 179-211): use the AI prediction
when it answers with confidence above 0.5, otherwise the simple calculation. -/
def determineMarketTrend (o : Oracle) (change : ℚ) (symbol : String) : Trend :=
  match o.predict symbol with
  | none => simpleTrend change
  | some p => if p.confidence > 1/2 then p.trend else simpleTrend change

/-- One additional-index entry of the `MARKET_SYMBOLS` table. -/
structure IndexSpec where
  symbol : String
  name : String
deriving DecidableEq, Repr

/-- One row of the `MARKET_SYMBOLS` table (market.ts lines 6-40). -/
structure MarketSymbols where
  volatilityIndex : String
  mainIndex : String
  additionalIndices : List IndexSpec
deriving DecidableEq, Repr

/-- The `MARKET_SYMBOLS` table (market.ts lines 6-40), keyed by locale. -/
def MARKET_SYMBOLS : List (String × MarketSymbols) :=
  [("US", ⟨"^VIX", "^GSPC",
     [⟨"^IXIC", "NASDAQ"⟩, ⟨"^DJI", "Dow Jones"⟩, ⟨"^RUT", "Russell 2000"⟩]⟩),
   ("IN", ⟨"^INDIAVIX", "^NSEI",
     [⟨"^BSESN", "Sensex"⟩, ⟨"^NSEBANK", "Bank Nifty"⟩, ⟨"^CNXIT", "Nifty IT"⟩]⟩),
   ("UK", ⟨"^FTSE", "^FTSE",
     [⟨"^FTMC", "FTSE 250"⟩, ⟨"^FTLC", "FTSE 100"⟩]⟩),
   ("SG", ⟨"^STI", "^STI",
     [⟨"^STI", "Straits Times Index"⟩]⟩)]

/-- `MARKET_SYMBOLS[locale]`: association-list lookup by locale string. -/
def marketSymbolsFor (locale : String) : Option MarketSymbols :=
  (MARKET_SYMBOLS.find? (fun entry => entry.1 == locale)).map (fun entry => entry.2)

/-- One entry of `localIndices` in the returned market data. -/
structure MarketIndices where
  name : String
  value : ℚ
  change : ℚ
deriving DecidableEq, Repr

/-- The `indicators` record of the returned market data. -/
structure MarketIndicators where
  volatilityIndex : ℚ
  mainIndex : ℚ
  trend : Trend
deriving DecidableEq, Repr

/-- The `MarketData` record returned by `getMarketCondition`. -/
structure MarketData where
  condition : MarketCondition
  locale : String
  indicators : MarketIndicators
  localIndices : List MarketIndices
deriving DecidableEq, Repr

/-- One row of `DEFAULT_MARKET_DATA` (market.ts lines 43-60). -/
structure DefaultMarketRow where
  volatilityIndex : ℚ
  mainIndex : ℚ
  additionalIndices : List MarketIndices
deriving DecidableEq, Repr

/-- `DEFAULT_MARKET_DATA.US` (market.ts lines 44-51). -/
def DEFAULT_MARKET_DATA_US : DefaultMarketRow :=
  ⟨20, 4000, [⟨"NASDAQ", 12000, -(1/2)⟩, ⟨"Dow Jones", 33000, -(3/10)⟩]⟩

/-- `DEFAULT_MARKET_DATA.IN` (market.ts lines 52-59). -/
def DEFAULT_MARKET_DATA_IN : DefaultMarketRow :=
  ⟨16, 21500, [⟨"Sensex", 72000, -(2/5)⟩, ⟨"Bank Nifty", 44000, -(3/5)⟩]⟩

/-- JavaScript `toUpperCase` on the locale strings in play: uppercase each
character. -/
def jsToUpperCase (s : String) : String := ⟨s.data.map Char.toUpper⟩

/-- The locale reassignment at the top of `getMarketCondition` (market.ts
lines 215-219): uppercase, then default to "IN" when the locale has no
`MARKET_SYMBOLS` row. -/
def normalizeLocale (locale : String) : String :=
  let upper := jsToUpperCase locale
  if (marketSymbolsFor upper).isSome then upper else "IN"

/-- The catch branch of `getMarketCondition` (market.ts lines 264-279):
neutral condition with the locale-dependent default data. -/
def getMarketConditionCatch (locale : String) : MarketData :=
  let defaultData := if locale = "US" then DEFAULT_MARKET_DATA_US else DEFAULT_MARKET_DATA_IN
  ⟨.neutral, locale,
   ⟨defaultData.volatilityIndex, defaultData.mainIndex, .sideways⟩,
   defaultData.additionalIndices⟩

/-- The body of `getMarketCondition` after the locale reassignment (market.ts
lines 221-263): fetch the volatility and main-index quotes (a throw reaches
the catch branch), collect additional indices with truthy prices (a per-index
throw just skips the entry), then classify condition and trend. -/
def getMarketConditionWithLocale (o : Oracle) (locale : String) : MarketData :=
  match marketSymbolsFor locale with
  | none => getMarketConditionCatch locale
  | some symbols =>
    match o.quote symbols.volatilityIndex with
    | none => getMarketConditionCatch locale
    | some vixResult =>
      match o.quote symbols.mainIndex with
      | none => getMarketConditionCatch locale
      | some mainIndexResult =>
        let vixValue := vixResult.regularMarketPrice.getD 0
        let mainIndexValue := mainIndexResult.regularMarketPrice.getD 0
        let mainIndexChange := mainIndexResult.regularMarketChangePercent.getD 0
        let localIndices : List MarketIndices :=
          symbols.additionalIndices.filterMap (fun index =>
            match o.quote index.symbol with
            | none => none
            | some result =>
              match result.regularMarketPrice with
              | some price =>
                if price ≠ 0 then
                  some ⟨index.name, price, result.regularMarketChangePercent.getD 0⟩
                else none
              | none => none)
        let condition := determineMarketCondition o vixValue mainIndexChange symbols.mainIndex
        let marketTrend := determineMarketTrend o mainIndexChange symbols.mainIndex
        ⟨condition, locale, ⟨vixValue, mainIndexValue, marketTrend⟩, localIndices⟩

/-- `getMarketCondition` (market.ts lines 213-280): normalize the locale,
then run the quote-and-classify pipeline against the collaborators. -/
def getMarketCondition (o : Oracle) (locale : String := "IN") : MarketData :=
  getMarketConditionWithLocale o (normalizeLocale locale)

/-- The valid risk-profile strings checked by the optimize route
(src/unnamed/part_002). -/
def validRiskProfiles : List String := ["conservative", "moderate", "aggressive"]

/-- The valid market-condition strings checked by the optimize route
(src/unnamed/part_002). -/
def validMarketConditions : List String := ["bearish", "neutral", "bullish"]

/-- The TypeScript `as` cast applied after the route has validated the
risk-profile string; only ever applied to members of `validRiskProfiles`. -/
def parseRiskProfile (s : String) : RiskProfile :=
  if s = "conservative" then .conservative
  else if s = "moderate" then .moderate
  else .aggressive

/-- The TypeScript `as` cast applied after the route has validated the
market-condition string; only ever applied to members of
`validMarketConditions`. -/
def parseMarketCondition (s : String) : MarketCondition :=
  if s = "bearish" then .bearish
  else if s = "neutral" then .neutral
  else .bullish

/-- The responses the optimize route can produce: a 400 with an error
message, or a 200 with the optimized portfolio. -/
inductive OptimizeResponse
  | badRequest (message : String)
  | ok (portfolio : OptimizedPortfolio)
deriving DecidableEq, Repr

/-- The POST /api/portfolio/optimize handler (src/unnamed/part_002 lines
334-365). Body fields are `Option String` (`none` models an absent field);
the JavaScript falsy test `!riskProfile` holds for an absent field and for
the empty string, which `Option.getD` with default `""` captures. Validation
rejects with 400 before `optimizePortfolio` is ever called. -/
def handleOptimizePortfolio (riskProfile marketCondition : Option String) :
    OptimizeResponse :=
  if riskProfile.getD "" = "" ∨ marketCondition.getD "" = "" then
    .badRequest "Risk profile and market condition are required"
  else if riskProfile.getD "" ∉ validRiskProfiles then
    .badRequest "Invalid risk profile"
  else if marketCondition.getD "" ∉ validMarketConditions then
    .badRequest "Invalid market condition"
  else
    .ok (optimizePortfolio (parseRiskProfile (riskProfile.getD ""))
      (parseMarketCondition (marketCondition.getD "")))

/-- An oracle all of whose collaborators throw. -/
def failingOracle : Oracle :=
  ⟨fun _ => none, fun _ => none, fun _ => none⟩

/-!
Spec-side models. Each definition below follows the words of the
specification or a claim derived from it, for comparison against the
code-derived definitions above.
-/

/-- Spec-side volatility signal, from the spec words: volatility above 25 is
bearish, below 15 is bullish, else neutral. -/
def specVolatilitySignal (volatility : ℚ) : MarketCondition :=
  if volatility > 25 then .bearish
  else if volatility < 15 then .bullish
  else .neutral

/-- Spec-side trend signal, from the spec words: trend up or down with
confidence above 0.4 maps to bullish or bearish, else neutral. -/
def specTrendSignal (p : MarketPrediction) : MarketCondition :=
  if p.confidence > 2/5 then
    match p.trend with
    | .up => .bullish
    | .down => .bearish
    | .sideways => .neutral
  else .neutral

/-- Spec-side sentiment signal, from the spec words: score above 1.5 or
below -1.5 with confidence above 0.4 maps to bullish or bearish, else
neutral. -/
def specSentimentSignal (s : SentimentResult) : MarketCondition :=
  if s.confidence > 2/5 then
    if s.score > 3/2 then .bullish
    else if s.score < -(3/2) then .bearish
    else .neutral
  else .neutral

/-- Spec-side recent-change signal, from the spec words: change above 1 is
bullish, below -1 is bearish, else neutral. -/
def specChangeSignal (change : ℚ) : MarketCondition :=
  if change > 1 then .bullish
  else if change < -1 then .bearish
  else .neutral

/-- The weight a signal contributes to a target bucket: its weight when it
voted for that bucket, zero otherwise. -/
def specWeight (sig target : MarketCondition) (w : ℚ) : ℚ :=
  if sig = target then w else 0

/-- Spec-side weighted sum for one bucket, with the spec weights: volatility
1.0, trend 1.5, sentiment 1.0, recent change 1.2. -/
def specBucketScore (target : MarketCondition) (volatility change : ℚ)
    (p : MarketPrediction) (s : SentimentResult) : ℚ :=
  specWeight (specVolatilitySignal volatility) target 1 +
  specWeight (specTrendSignal p) target (3/2) +
  specWeight (specSentimentSignal s) target 1 +
  specWeight (specChangeSignal change) target (6/5)

/-- Spec-side classifier, from the claim words: the bucket with the strictly
greatest weighted sum wins, and any tie for the top yields neutral. -/
def specClassifier (volatility change : ℚ) (p : MarketPrediction)
    (s : SentimentResult) : MarketCondition :=
  let bear := specBucketScore .bearish volatility change p s
  let bull := specBucketScore .bullish volatility change p s
  let neut := specBucketScore .neutral volatility change p s
  if bear > bull ∧ bear > neut then .bearish
  else if bull > bear ∧ bull > neut then .bullish
  else if neut > bear ∧ neut > bull then .neutral
  else .neutral

/-- The fallback model as the claim describes it: the same thresholds as the
full model, the volatility branch decided first, and the recent-change branch
consulted only when volatility lies in the neutral band. -/
def claimedFallback (vixValue mainIndexChange : ℚ) : MarketCondition :=
  if vixValue > 25 then .bearish
  else if vixValue < 15 then .bullish
  else if mainIndexChange > 1 then .bullish
  else if mainIndexChange < -1 then .bearish
  else .neutral

/-- The fallback model as amended: volatility first, but inside the extreme
volatility bands the recent change must confirm the call (above 25 yields
bearish only when change is below -0.5, below 15 yields bullish only when
change is above 0.5, else neutral); in the neutral volatility band change
above 1 is bullish and below -1 is bearish, else neutral. -/
def amendedFallback (vixValue mainIndexChange : ℚ) : MarketCondition :=
  if vixValue > 25 then
    if mainIndexChange < -(1/2) then .bearish else .neutral
  else if vixValue < 15 then
    if mainIndexChange > 1/2 then .bullish else .neutral
  else if mainIndexChange > 1 then .bullish
  else if mainIndexChange < -1 then .bearish
  else .neutral

/-!
Helper lemmas shared by the claim theorems.
-/

/-- Rounding an integer cast to ℚ (plus the JS half-up offset) returns the
integer. -/
theorem jsRound_intCast (n : ℤ) : jsRound (n : ℚ) = n := by
  unfold jsRound
  rw [Int.floor_eq_iff]
  exact ⟨by linarith, by linarith⟩

/-- When the clamped buckets already sum to 100 the renormalization step is
the identity. -/
theorem normalizedAllocation_of_total_100 (r : RiskProfile) (c : MarketCondition)
    (h : clampedTotal r c = 100) : normalizedAllocation r c = adjustedClamped r c := by
  unfold normalizedAllocation
  rw [h]
  norm_num
  simp only [jsRound_intCast]

/-- When the clamped buckets already sum to 100 the whole optimizer returns
the clamped record unchanged. -/
theorem calc_eq_clamped (r : RiskProfile) (c : MarketCondition)
    (h : clampedTotal r c = 100) : calculateOptimalAllocation r c = adjustedClamped r c := by
  unfold calculateOptimalAllocation
  rw [normalizedAllocation_of_total_100 r c h]
  unfold clampedTotal at h
  simp only [h]
  norm_num

/-- When the clamped buckets of `optimizePortfolio` already sum to 100 the
normalized allocation list carries the clamped percentages unchanged. -/
theorem optimizePortfolio_allocation_of_total_100 (r : RiskProfile) (c : MarketCondition)
    (h : optimizedTotal r c = 100) :
    (optimizePortfolio r c).allocation =
      [("stocks", (optimizedAllocation r c).stocks),
       ("bonds", (optimizedAllocation r c).bonds),
       ("cash", (optimizedAllocation r c).cash),
       ("alternatives", (optimizedAllocation r c).alternatives)] := by
  unfold optimizePortfolio
  rw [h]
  norm_num
  exact ⟨jsRound_intCast _, jsRound_intCast _, jsRound_intCast _, jsRound_intCast _⟩

/-- The spec-side volatility signal coincides with the code-side one. -/
theorem vol_signal_eq (v : ℚ) : specVolatilitySignal v = vixSignal v := rfl

/-- The spec-side recent-change signal coincides with the code-side one. -/
theorem chg_signal_eq (chg : ℚ) : specChangeSignal chg = currentSignal chg := rfl

/-- The spec-side trend signal coincides with the code-side one. -/
theorem trend_signal_eq (p : MarketPrediction) : specTrendSignal p = predictionSignal p := by
  unfold specTrendSignal predictionSignal
  by_cases hc : p.confidence > 2/5 <;> cases htrend : p.trend <;> simp [hc, htrend]

/-- The spec-side sentiment signal coincides with the code-side one. -/
theorem sentiment_signal_eq (s : SentimentResult) :
    specSentimentSignal s = sentimentSignal s := by
  unfold specSentimentSignal sentimentSignal
  by_cases hc : s.confidence > 2/5 <;>
    by_cases h1 : s.score > 3/2 <;>
    by_cases h2 : s.score < -(3/2) <;>
    simp [hc, h1, h2]

/-- The foreach-style weighted score accumulation agrees with the per-bucket
weighted sums, for the four signals and weights in play. -/
theorem scoreFold_quad (a b c d : MarketCondition) :
    scoreFold [(a, 1), (b, 3/2), (c, 1), (d, 6/5)] =
      (specWeight a .bearish 1 + specWeight b .bearish (3/2) +
         specWeight c .bearish 1 + specWeight d .bearish (6/5),
       specWeight a .bullish 1 + specWeight b .bullish (3/2) +
         specWeight c .bullish 1 + specWeight d .bullish (6/5),
       specWeight a .neutral 1 + specWeight b .neutral (3/2) +
         specWeight c .neutral 1 + specWeight d .neutral (6/5)) := by
  cases a <;> cases b <;> cases c <;> cases d <;>
    simp [scoreFold, specWeight]

/-- The if-chain of market.ts lines 145-151 computes the strict argmax with
neutral on any tie. -/
theorem winner_eq (B U N : ℚ) :
    (if B > U ∧ B > N then MarketCondition.bearish
     else if U > B ∧ U > N then MarketCondition.bullish
     else MarketCondition.neutral) =
    (if B > U ∧ B > N then MarketCondition.bearish
     else if U > B ∧ U > N then MarketCondition.bullish
     else if N > B ∧ N > U then MarketCondition.neutral
     else MarketCondition.neutral) := by
  split_ifs <;> rfl

/-!
Claim theorems.
-/

/-- C1: for every risk profile and market condition, `calculateOptimalAllocation`
returns four non-negative integer percentages summing to exactly 100, and the
parallel `optimizePortfolio` allocation list likewise holds non-negative
integer percentages summing to exactly 100. -/
theorem allocation_outputs_sum_to_100 : ∀ (r : RiskProfile) (c : MarketCondition),
    (0 ≤ (calculateOptimalAllocation r c).equity ∧
     0 ≤ (calculateOptimalAllocation r c).debt ∧
     0 ≤ (calculateOptimalAllocation r c).gold ∧
     0 ≤ (calculateOptimalAllocation r c).cash ∧
     (calculateOptimalAllocation r c).equity + (calculateOptimalAllocation r c).debt +
       (calculateOptimalAllocation r c).gold + (calculateOptimalAllocation r c).cash = 100) ∧
    (((optimizePortfolio r c).allocation.map (fun e => e.2)).sum = 100 ∧
     ((optimizePortfolio r c).allocation.all fun e => decide (0 ≤ e.2)) = true) := by
  intro r c
  cases r <;> cases c <;>
    refine ⟨?_, ?_⟩ <;>
    first
      | (rw [calc_eq_clamped _ _ (by decide)]; decide)
      | (rw [optimizePortfolio_allocation_of_total_100 _ _ (by decide)]; decide)

/-- C2: the success path of the signal classifier maps the four inputs to
signals with the stated thresholds, weights them 1.0 / 1.5 / 1.0 / 1.2, and
returns the bucket with the strictly greatest weighted sum, with neutral on
any tie — it coincides with the spec-side weighted-argmax classifier. -/
theorem classifier_matches_weighted_argmax :
    ∀ (vix chg : ℚ) (p : MarketPrediction) (s : SentimentResult),
      determineMarketConditionFull vix chg p s = specClassifier vix chg p s := by
  intro vix chg p s
  simp only [determineMarketConditionFull, specClassifier, specBucketScore,
    vol_signal_eq, trend_signal_eq, sentiment_signal_eq, chg_signal_eq, scoreFold_quad]
  exact winner_eq _ _ _

/-- C3 counterexample: the fallback does not decide the volatility branch
alone with the full-model thresholds — at vix 30 and change 0 the code
returns neutral while the claimed volatility-first model returns bearish. -/
theorem fallback_volatility_first_counterexample :
    determineMarketCondition failingOracle 30 0 "^NSEI" = MarketCondition.neutral ∧
    claimedFallback 30 0 = MarketCondition.bearish ∧
    determineMarketCondition failingOracle 30 0 "^NSEI" ≠ claimedFallback 30 0 := by
  refine ⟨?_, ?_, ?_⟩
  · simp [determineMarketCondition, failingOracle]
    norm_num [determineMarketConditionFallback]
  · norm_num [claimedFallback]
  · simp [determineMarketCondition, failingOracle, claimedFallback]
    norm_num [determineMarketConditionFallback]
    decide

/-- C3 (amended): when the trend or the sentiment source throws, the
classifier computes the two-signal fallback, which decides volatility first
but inside the extreme volatility bands requires the recent change to confirm
(below -0.5 for bearish when vix is above 25, above 0.5 for bullish when vix
is below 15, else neutral), and in the neutral volatility band uses the
change thresholds 1 and -1; in particular vix 30 with change -2 is bearish,
vix 10 with change 2 is bullish, and vix 20 with change 0 is neutral. -/
theorem fallback_two_signal_amended :
    (∀ (o : Oracle) (vix chg : ℚ) (sym : String),
      o.predict sym = none ∨ o.sentiment sym = none →
      determineMarketCondition o vix chg sym = amendedFallback vix chg) ∧
    amendedFallback 30 (-2) = MarketCondition.bearish ∧
    amendedFallback 10 2 = MarketCondition.bullish ∧
    amendedFallback 20 0 = MarketCondition.neutral := by
  refine ⟨?_, by norm_num [amendedFallback], by norm_num [amendedFallback],
    by norm_num [amendedFallback]⟩
  intro o vix chg sym h
  unfold determineMarketCondition
  rcases h with h | h
  · rw [h]
    rfl
  · cases hp : o.predict sym
    · rfl
    · rw [h]
      rfl

/-- C3 witness: the amended fallback theorem applied at a failing oracle with
vix 30 and change -2. -/
theorem fallback_two_signal_amended_witness :
    determineMarketCondition failingOracle 30 (-2) "^NSEI" = amendedFallback 30 (-2) :=
  fallback_two_signal_amended.1 failingOracle 30 (-2) "^NSEI" (Or.inl rfl)

/-- C4: after adding deltas and clamping, every bucket lies within its
asset-class bound — equity in [10,90], debt in [10,70], gold in [0,30], cash
in [0,30] — for every base and delta, and an injected equity delta of +30 on
the aggressive base of 70 clamps to 90, not 100. -/
theorem clamp_respects_asset_bounds :
    (∀ base adjustment : AssetAllocation,
      10 ≤ (applyMarketAdjustment base adjustment).equity ∧
      (applyMarketAdjustment base adjustment).equity ≤ 90 ∧
      10 ≤ (applyMarketAdjustment base adjustment).debt ∧
      (applyMarketAdjustment base adjustment).debt ≤ 70 ∧
      0 ≤ (applyMarketAdjustment base adjustment).gold ∧
      (applyMarketAdjustment base adjustment).gold ≤ 30 ∧
      0 ≤ (applyMarketAdjustment base adjustment).cash ∧
      (applyMarketAdjustment base adjustment).cash ≤ 30) ∧
    (applyMarketAdjustment (mcpBaseAllocations .aggressive) ⟨30, 0, 0, 0⟩).equity = 90 := by
  constructor
  · intro base adjustment
    simp only [applyMarketAdjustment, clampI]
    omega
  · decide

/-- C5: a request with a risk profile outside the valid set or a market
condition outside the valid set is rejected with a 400 error and never
reaches `optimizePortfolio`. -/
theorem optimize_route_rejects_invalid_input : ∀ rp mc : String,
    (rp ∉ validRiskProfiles ∨ mc ∉ validMarketConditions) →
    (∃ msg, handleOptimizePortfolio (some rp) (some mc) = .badRequest msg) ∧
    ∀ pf, handleOptimizePortfolio (some rp) (some mc) ≠ .ok pf := by
  intro rp mc h
  by_cases hf : rp = "" ∨ mc = ""
  · simp only [handleOptimizePortfolio, Option.getD_some, if_pos hf]
    exact ⟨⟨_, rfl⟩, fun pf hcon => OptimizeResponse.noConfusion hcon⟩
  · by_cases hrp : rp ∈ validRiskProfiles
    · have hmc : mc ∉ validMarketConditions := by
        rcases h with h | h
        · exact absurd hrp h
        · exact h
      simp only [handleOptimizePortfolio, Option.getD_some, if_neg hf,
        if_neg (not_not.mpr hrp), if_pos hmc]
      exact ⟨⟨_, rfl⟩, fun pf hcon => OptimizeResponse.noConfusion hcon⟩
    · simp only [handleOptimizePortfolio, Option.getD_some, if_neg hf, if_pos hrp]
      exact ⟨⟨_, rfl⟩, fun pf hcon => OptimizeResponse.noConfusion hcon⟩

/-- C5 witness: the route rejects the unknown risk profile "hyper" with a
400 and no allocation. -/
theorem optimize_route_rejects_invalid_input_witness :
    (∃ msg, handleOptimizePortfolio (some "hyper") (some "neutral") = .badRequest msg) ∧
    ∀ pf, handleOptimizePortfolio (some "hyper") (some "neutral") ≠ .ok pf :=
  optimize_route_rejects_invalid_input "hyper" "neutral" (Or.inl (by decide))

/-- C6: the two spec scenarios hold exactly — conservative and bearish gives
equity 15, debt 53, gold 20, cash 12; aggressive and bullish gives equity 80,
debt 10, gold 7, cash 3 — with clamping the identity, the clamped total
already 100, and the rounding and residual adjustment leaving every bucket
unchanged. -/
theorem spec_scenarios_exact :
    calculateOptimalAllocation .conservative .bearish = ⟨15, 53, 20, 12⟩ ∧
    calculateOptimalAllocation .aggressive .bullish = ⟨80, 10, 7, 3⟩ ∧
    adjustedRaw .conservative .bearish = adjustedClamped .conservative .bearish ∧
    adjustedRaw .aggressive .bullish = adjustedClamped .aggressive .bullish ∧
    clampedTotal .conservative .bearish = 100 ∧
    clampedTotal .aggressive .bullish = 100 ∧
    normalizedAllocation .conservative .bearish = adjustedClamped .conservative .bearish ∧
    normalizedAllocation .aggressive .bullish = adjustedClamped .aggressive .bullish := by
  refine ⟨?_, ?_, by decide, by decide, by decide, by decide, ?_, ?_⟩
  · rw [calc_eq_clamped _ _ (by decide)]
    decide
  · rw [calc_eq_clamped _ _ (by decide)]
    decide
  · exact normalizedAllocation_of_total_100 _ _ (by decide)
  · exact normalizedAllocation_of_total_100 _ _ (by decide)

/-- C7: both optimizers are deterministic — equal risk-profile and
market-condition arguments always produce equal outputs, and the embedded
functions depend on nothing outside their arguments. -/
theorem allocation_deterministic :
    (∀ (r₁ : RiskProfile) (c₁ : MarketCondition) (r₂ : RiskProfile) (c₂ : MarketCondition),
      r₁ = r₂ → c₁ = c₂ →
      calculateOptimalAllocation r₁ c₁ = calculateOptimalAllocation r₂ c₂) ∧
    (∀ (r₁ : RiskProfile) (c₁ : MarketCondition) (r₂ : RiskProfile) (c₂ : MarketCondition),
      r₁ = r₂ → c₁ = c₂ → optimizePortfolio r₁ c₁ = optimizePortfolio r₂ c₂) := by
  constructor
  · intro r₁ c₁ r₂ c₂ h1 h2
    rw [h1, h2]
  · intro r₁ c₁ r₂ c₂ h1 h2
    rw [h1, h2]

/-- C7 witness: determinism applied at concrete equal inputs. -/
theorem allocation_deterministic_witness :
    calculateOptimalAllocation .conservative .bearish =
      calculateOptimalAllocation .conservative .bearish ∧
    optimizePortfolio .moderate .bullish = optimizePortfolio .moderate .bullish :=
  ⟨allocation_deterministic.1 .conservative .bearish .conservative .bearish rfl rfl,
   allocation_deterministic.2 .moderate .bullish .moderate .bullish rfl rfl⟩

/-- C8: neutral market condition is an identity for the optimizer — for every
risk profile the result is exactly the base allocation row. -/
theorem neutral_condition_identity :
    ∀ r : RiskProfile, calculateOptimalAllocation r .neutral = mcpBaseAllocations r := by
  intro r
  cases r <;> (rw [calc_eq_clamped _ _ (by decide)]; decide)

/-- C9: for every fixed market condition the equity percentage is strictly
increasing in risk profile. -/
theorem equity_strictly_increasing_in_risk :
    ∀ c : MarketCondition,
      (calculateOptimalAllocation .conservative c).equity <
        (calculateOptimalAllocation .moderate c).equity ∧
      (calculateOptimalAllocation .moderate c).equity <
        (calculateOptimalAllocation .aggressive c).equity := by
  intro c
  cases c <;>
    (constructor <;> (rw [calc_eq_clamped _ _ (by decide), calc_eq_clamped _ _ (by decide)]; decide))

/-- C10: `getMarketCondition` silently normalizes the locale — any locale
whose uppercasing has no `MARKET_SYMBOLS` row behaves exactly as a call with
locale "IN", given the same collaborator responses. -/
theorem unsupported_locale_treated_as_india :
    ∀ (o : Oracle) (s : String),
      (marketSymbolsFor (jsToUpperCase s)).isSome = false →
      getMarketCondition o s = getMarketCondition o "IN" := by
  intro o s h
  have hIN : normalizeLocale "IN" = "IN" := by decide
  unfold getMarketCondition
  rw [hIN]
  unfold normalizeLocale
  simp [h]

/-- C10 witness: the unsupported locale "xx" behaves as "IN". -/
theorem unsupported_locale_treated_as_india_witness :
    getMarketCondition failingOracle "xx" = getMarketCondition failingOracle "IN" :=
  unsupported_locale_treated_as_india failingOracle "xx" (by decide)

end InvestWise
